import Mathlib

/-!
Shallow embedding of the qupo backend glue layer
(`src/api/qupo_backend/models/optimization_backend/backend_runner.py` and
`src/api/qupo_backend/models/portfolio_model.py`).

Python exceptions are modelled explicitly: every embedded function returns
its list of issued warnings together with an `Except PyExc` outcome, so that
"caught and converted to a warning" versus "propagates to the caller" is a
provable distinction.  Calls into third-party SDKs (pypfopt, osqp, the Azure
Quantum services, qiskit) are modelled by an `Oracle` of externally supplied
responses, since their behaviour is not part of this repository.  Numeric
values are rationals.
-/

namespace Qupo

/-- The Python exception classes that the code under `src/` can raise or
catch.  `unboundLocalError` stands for Python's `UnboundLocalError` (a
subclass of `NameError`), raised when a local variable is read before any
assignment to it has executed; it is distinct from `typeError`, which is the
only class the `except TypeError:` handlers catch. -/
inductive PyExc
  | typeError (msg : String)
  | valueError (msg : String)
  | keyError (msg : String)
  | unboundLocalError (msg : String)
  | otherError (msg : String)
deriving DecidableEq, Repr

/-- A Python scalar as it appears in the free-form `config` mapping of a
`Solver` (`config = \x7b'timeout': 1, 'hardware': 'FPGA'\x7d` mixes numbers and
strings). -/
inductive PyVal
  | num (q : ℚ)
  | str (s : String)
deriving DecidableEq, Repr

/-- The result of running an embedded Python function: the warnings it issued
(in order, via `warnings.warn`) and either a normal return value or the
exception it raised. -/
structure PyRes (α : Type) where
  warnings : List String
  outcome : Except PyExc α
deriving Repr

/-- What an adapter function hands back to `run_job`: either a Python
3-tuple `(variable_values, objective_value, time_to_solution)` whose
components may individually be `None`, or the bare `None` that a Python
function without a `return` statement produces. -/
inductive AdapterRet
  | pyNone
  | triple (v : Option (List ℚ)) (o : Option ℚ) (t : Option PyVal)
deriving Repr

/-- `Problem` from `optimization_classes`, as constructed in
`calculate_model` (`portfolio_model.py` line 50): the OSQP matrices and
vectors, the tunable weights and the resolution.  The pandas dataframe and
the qiskit converter object are third-party values; the dataframe is not
consulted by the embedded functions and the converter is represented by its
`interpret` method, as is the `calc_objective_value` method used by
`run_pypo_job`. -/
structure Problem where
  P : List (List ℚ)
  q : List ℚ
  A : List (List ℚ)
  l : List ℚ
  u : List ℚ
  risk_weight : ℚ
  esg_weight : ℚ
  resolution : Option ℚ
  calc_objective_value : List ℚ → ℚ
  interpret : List ℚ → List ℚ

/-- `Solver` from `optimization_classes`: provider name, algorithm name and
the free-form config mapping (an association list standing for the Python
dict). -/
structure Solver where
  provider_name : String
  algorithm : String
  config : List (String × PyVal)

/-- `Job` pairs a `Problem` with a `Solver`; the `result` attribute that
`run_job` may later set is modelled as `run_job`'s return value. -/
structure Job where
  problem : Problem
  solver : Solver

/-- `Result` from `optimization_classes`, as far as `run_job` constructs it:
`Result(variable_values * 100, objective_value, time_to_solution)`.
Modelled from the spec: `optimization_classes.py` is not under `src/`; the
spec describes `Result` as a flat holder of a raw output vector, an
objective scalar and a time-to-solution scalar (its derived ESG score plays
no role in the embedded code). -/
structure Result where
  variable_values : List ℚ
  objective_value : Option ℚ
  time_to_solution : Option PyVal
deriving Repr

/-- The raw OSQP result object: `raw_result.x`, `raw_result.info.obj_val`
and `raw_result.info.run_time` (`x` is `None` when OSQP cannot solve). -/
structure OsqpRaw where
  x : Option (List ℚ)
  obj_val : ℚ
  run_time : ℚ
deriving Repr

/-- Responses of the third-party SDKs that the adapter functions call.
Each field is the outcome of one external call: `Except.error e` means the
SDK call raised `e`, `Except.ok` carries the value the code extracts from
the SDK's response.  `azureProvider b` is `configure_azure_provider
(quantum=b)`; `qioOptimize` is `qio_solver.optimize`, delivering
`list(result['configuration'].values())`; `qiskitSolve` is `qaoa.solve`,
delivering `raw_result.x`; `ionqBackends` is
`provider.backends('ionq.simulator')`. -/
structure Oracle where
  pypoSolve : Except PyExc (List ℚ)
  osqpSolve : Except PyExc OsqpRaw
  azureProvider : Bool → Except PyExc Unit
  qioOptimize : Except PyExc (List ℚ)
  ibmqAccountError : Bool
  ibmqGetProvider : Except PyExc Unit
  qiskitSolve : Except PyExc (List ℚ)
  ionqBackends : Except PyExc (List Unit)

/-- Dot product of two rational vectors (`np.dot`). -/
def dotQ (a b : List ℚ) : ℚ := (List.zipWith (· * ·) a b).sum

/-- Matrix-vector product (`P.dot(v)`). -/
def matVec (P : List (List ℚ)) (v : List ℚ) : List ℚ :=
  P.map (fun row => dotQ row v)

/-- The objective `0.5 * np.dot(v, P.dot(v)) + np.dot(q, v)` computed
inline in `run_qio_job` (lines 111-112) and `run_qiskit_job`
(lines 159-160). -/
def quadraticObjective (P : List (List ℚ)) (q v : List ℚ) : ℚ :=
  1 / 2 * dotQ v (matVec P v) + dotQ q v

/-- Python dict lookup on the config mapping, `None` when the key is
absent (an absent key raises `KeyError` at the use sites; callers of this
helper turn `none` into that exception). -/
def lookupConfig (cfg : List (String × PyVal)) (k : String) : Option PyVal :=
  (cfg.find? (fun e => e.1 = k)).map (fun e => e.2)

/-- Warning text of `run_job` line 33 (the Python source interpolates the
provider name into an f-string). -/
def providerWarn (name : String) : String :=
  "Provider " ++ name ++ " not available"

/-- Warning text of `run_job` line 37. -/
def noVariableValuesWarn : String := "Solver did not return variable values"

/-- Warning text of `run_qio_job` line 105. -/
def qioNotImplementedWarn : String :=
  "QIO solver not implemented - choose from: SA, PA, PT, Tabu, QMC, SMC"

/-- Warning text of `run_qio_job` line 117 (the Python source appends the
solver config to the message). -/
def qioFailedWarn : String :=
  "Qio job failed. Please check azure qio service health status and config"

/-- Warning text of `configure_qiskit_provider` line 133. -/
def ibmqAccountWarn : String :=
  "IBM account not available. Please check ibmq health status and credentials"

/-- `run_pypo_job` (lines 40-47): call pypfopt's `max_quadratic_utility`
(no try/except, so an SDK exception propagates), take the dict values as the
variable vector, compute the objective through
`job.problem.calc_objective_value`, and return `None` as time to
solution. -/
def run_pypo_job (job : Job) (o : Oracle) : PyRes AdapterRet :=
  match o.pypoSolve with
  | .error e => ⟨[], .error e⟩
  | .ok vs =>
      ⟨[], .ok (.triple (some vs) (some (job.problem.calc_objective_value vs)) none)⟩

/-- `run_osqp_job` (lines 50-61): set up and solve with OSQP (no
try/except), then extract `x`, `info.obj_val` and `info.run_time`. -/
def run_osqp_job (_job : Job) (o : Oracle) : PyRes AdapterRet :=
  match o.osqpSolve with
  | .error e => ⟨[], .error e⟩
  | .ok raw =>
      ⟨[], .ok (.triple raw.x (some raw.obj_val) (some (.num raw.run_time)))⟩

/-- The algorithm names `run_qio_job` recognises (lines 86-103). -/
def qioAlgorithms : List String := ["SA", "PA", "PT", "Tabu", "QMC", "SMC"]

/-- `run_qio_job` (lines 83-118).  `configure_azure_provider()` runs outside
the `try`, so its failure propagates.  Inside the `try`:
* every recognised algorithm except `QMC` reads `config['timeout']` while
  building its solver, so a missing key raises `KeyError` there — which the
  `except TypeError:` handler does not catch;
* an unrecognised algorithm only triggers a warning, after which
  `qio_solver.optimize` reads the never-assigned local `qio_solver`,
  raising `UnboundLocalError` — again not caught by `except TypeError:`;
* a `TypeError` from the solve (or from multiplying the interpreted vector
  with a `None` resolution) is caught, warned about, and turned into the
  `(None, None, None)` return of line 118;
* on success, `time_to_solution` is set to `config['timeout']`
  (line 113; for `QMC` this is the first read of the key, so it can raise
  `KeyError` here). -/
def run_qio_job (job : Job) (o : Oracle) : PyRes AdapterRet :=
  match o.azureProvider false with
  | .error e => ⟨[], .error e⟩
  | .ok _ =>
      if job.solver.algorithm ∈ qioAlgorithms then
        if job.solver.algorithm ≠ "QMC" ∧
            lookupConfig job.solver.config "timeout" = none then
          ⟨[], .error (.keyError "timeout")⟩
        else
          match o.qioOptimize with
          | .error (.typeError _) => ⟨[qioFailedWarn], .ok (.triple none none none)⟩
          | .error e => ⟨[], .error e⟩
          | .ok cfgVals =>
              match job.problem.resolution with
              | none => ⟨[qioFailedWarn], .ok (.triple none none none)⟩
              | some r =>
                  let v := (job.problem.interpret cfgVals).map (· * r)
                  let obj := quadraticObjective job.problem.P job.problem.q v
                  match lookupConfig job.solver.config "timeout" with
                  | none => ⟨[], .error (.keyError "timeout")⟩
                  | some t => ⟨[], .ok (.triple (some v) (some obj) (some t))⟩
      else
        ⟨[qioNotImplementedWarn], .error (.unboundLocalError "qio_solver")⟩

/-- `configure_qiskit_provider` (lines 129-140): an `IBMQAccountError` from
`enable_account` is caught and warned about; `get_provider` runs outside
that handler, so its failure propagates. -/
def configure_qiskit_provider (o : Oracle) : PyRes Unit :=
  ⟨if o.ibmqAccountError then [ibmqAccountWarn] else [], o.ibmqGetProvider⟩

/-- `run_qiskit_job` (lines 143-163): configure the provider, solve the
quadratic program with QAOA (no try/except around the solve), take
`raw_result.x` as the variable vector, compute the inline objective, and
return `None` as time to solution. -/
def run_qiskit_job (job : Job) (o : Oracle) : PyRes AdapterRet :=
  let c := configure_qiskit_provider o
  match c.outcome with
  | .error e => ⟨c.warnings, .error e⟩
  | .ok _ =>
      match o.qiskitSolve with
      | .error e => ⟨c.warnings, .error e⟩
      | .ok x =>
          ⟨c.warnings,
            .ok (.triple (some x)
              (some (quadraticObjective job.problem.P job.problem.q x)) none)⟩

/-- `run_ionq_job` (lines 121-126): configure the Azure quantum provider,
fetch the `ionq.simulator` backends and index the first one
(`IndexError` when the list is empty), then call
`run_qiskit_job(job, simulator_backend)` — but `run_qiskit_job` is defined
with the single parameter `job` (line 143), so this call itself raises
`TypeError` before the qiskit code runs.  The function also has no `return`
statement, so even a successful body would produce Python `None`. -/
def run_ionq_job (_job : Job) (o : Oracle) : PyRes AdapterRet :=
  match o.azureProvider true with
  | .error e => ⟨[], .error e⟩
  | .ok _ =>
      match o.ionqBackends with
      | .error e => ⟨[], .error e⟩
      | .ok backends =>
          if backends.isEmpty then
            ⟨[], .error (.otherError "IndexError: list index out of range")⟩
          else
            ⟨[], .error (.typeError
              "run_qiskit_job() takes 1 positional argument but 2 were given")⟩

/-- The `Providers` enumeration (lines 166-172). -/
inductive Providers
  | pypo
  | osqp
  | qio
  | qiskit
  | ionq
deriving DecidableEq, Repr

/-- The `.value` of each enumeration member. -/
def Providers.value : Providers → String
  | .pypo => "pypfopt"
  | .osqp => "osqp"
  | .qio => "azure_quantum_qio"
  | .qiskit => "qiskit_ibm"
  | .ionq => "azure_ionq"

/-- The `.name` of each enumeration member. -/
def Providers.pyName : Providers → String
  | .pypo => "pypo"
  | .osqp => "osqp"
  | .qio => "qio"
  | .qiskit => "qiskit"
  | .ionq => "ionq"

/-- All members of the enumeration, in declaration order. -/
def Providers.members : List Providers := [.pypo, .osqp, .qio, .qiskit, .ionq]

/-- `Providers(s)`: Python's enum lookup by value.  `none` models the
`ValueError` the `Enum` machinery raises for a string that is no member's
value (the caller `run_job` turns `none` into that exception). -/
def Providers.fromValue (s : String) : Option Providers :=
  Providers.members.find? (fun p => p.value = s)

/-- `Providers[s]`: Python's enum lookup by member name, as used in
`calculate_model` (`portfolio_model.py` line 51). -/
def Providers.fromName (s : String) : Option Providers :=
  Providers.members.find? (fun p => p.pyName = s)

/-- The global adapter-function namespace that
`eval('run_' + self.name + '_job(job)')` resolves its constructed name in:
maps a function-name string to the adapter function of that name, `none`
when no such global exists (in which case `eval` would raise
`NameError`). -/
def adapterNamed (s : String) : Option (Job → Oracle → PyRes AdapterRet) :=
  if s = "run_pypo_job" then some run_pypo_job
  else if s = "run_osqp_job" then some run_osqp_job
  else if s = "run_qio_job" then some run_qio_job
  else if s = "run_qiskit_job" then some run_qiskit_job
  else if s = "run_ionq_job" then some run_ionq_job
  else none

/-- `Providers.run_job` (lines 174-175): build the string
`'run_' + self.name + '_job(job)'` and evaluate it, i.e. look the
constructed name up among the module's functions and call it on the job. -/
def Providers.evalRunJob (p : Providers) (job : Job) (o : Oracle) : PyRes AdapterRet :=
  match adapterNamed ("run_" ++ p.pyName ++ "_job") with
  | some f => f job o
  | none => ⟨[], .error (.otherError "NameError")⟩

/-- `run_job` (lines 29-37).  First `try`: `Providers(provider_name)` — an
unknown value raises `ValueError`, which the `except TypeError:` handler
does not catch — then the dispatched adapter call and the unpacking of its
return into three locals; a `TypeError` here (from the adapter, or from
unpacking a non-tuple such as the `None` of `run_ionq_job`) is caught and
warned about, any other exception propagates.  Second `try`:
`job.result = Result(variable_values * 100, ...)`.  When the first `try`
failed, the three locals were never assigned, so reading `variable_values`
raises `UnboundLocalError` — not caught by `except TypeError:`.  When the
adapter returned a triple with `variable_values = None`, `None * 100`
raises `TypeError`, which is caught and warned about, leaving `job.result`
unset (the `.ok none` outcome).  Only a triple with an actual vector leads
to `job.result` being assigned, with the vector scaled by 100. -/
def run_job (job : Job) (o : Oracle) : PyRes (Option Result) :=
  match Providers.fromValue job.solver.provider_name with
  | none =>
      ⟨[], .error (.valueError (job.solver.provider_name ++ " is not a valid Providers"))⟩
  | some p =>
      let r := p.evalRunJob job o
      match r.outcome with
      | .error (.typeError _) =>
          ⟨r.warnings ++ [providerWarn job.solver.provider_name],
            .error (.unboundLocalError "variable_values")⟩
      | .error e => ⟨r.warnings, .error e⟩
      | .ok .pyNone =>
          ⟨r.warnings ++ [providerWarn job.solver.provider_name],
            .error (.unboundLocalError "variable_values")⟩
      | .ok (.triple none _ _) =>
          ⟨r.warnings ++ [noVariableValuesWarn], .ok none⟩
      | .ok (.triple (some v) obj t) =>
          ⟨r.warnings, .ok (some ⟨v.map (· * 100), obj, t⟩)⟩

/-! ## `portfolio_model.py` -/

/-- The algorithm name, config mapping and resolution that `calculate_model`
(`portfolio_model.py` lines 38-48) computes from the model name: the
defaults are `(model, \x7b\x7d, None)`, a first `if` overrides all three for
`'qio'`, a second independent `if` overrides algorithm and resolution for
`'qiskit'` and `'ionq'`. -/
def calcSolverParams (model : String) : String × List (String × PyVal) × Option ℚ :=
  let config : List (String × PyVal) := []
  let algorithm := model
  let resolution : Option ℚ := none
  let (algorithm, config, resolution) :=
    if model = "qio" then
      ("PA", [("timeout", PyVal.num 1), ("hardware", PyVal.str "FPGA")], some (1 : ℚ))
    else (algorithm, config, resolution)
  let (algorithm, resolution) :=
    if model = "qiskit" ∨ model = "ionq" then ("QAOA", some (1 : ℚ))
    else (algorithm, resolution)
  (algorithm, config, resolution)

/-- The `Solver` that `calculate_model` builds (line 51):
`Solver(provider_name=Providers[model].value, algorithm=algorithm,
config=config)`.  `none` models the `KeyError` that `Providers[model]`
raises when `model` is not a member name. -/
def calculate_model_solver (model : String) : Option Solver :=
  (Providers.fromName model).map fun p =>
    ⟨p.value, (calcSolverParams model).1, (calcSolverParams model).2.1⟩

/-- The `resolution` that `calculate_model` passes into its `Problem`
(line 50). -/
def calculate_model_resolution (model : String) : Option ℚ :=
  (calcSolverParams model).2.2

/-! ## `get_model_calculations` and the crud layer

`qupo_backend.db.calculations.crud` and `.schemas` are not under `src/`;
the spec only describes them as "a local database access layer
(schemas/crud for calculations and results) that this code calls into but
does not define".  They are therefore modelled from the spec as a plain
store keyed by the `CalculationBase` identity (model name plus the metadata
kwargs), with an explicit log of every `create_calculation`,
`create_result` and `calculate_model` invocation so that the dispatch
pattern of `get_model_calculations` is provable. -/

/-- The identity of a `CalculationBase`: the model name and the metadata
kwargs (represented opaquely by one string). -/
abbrev CalcKey := String × String

/-- Modelled from the spec: the state of the calculations database,
together with instrumentation logs.  `db` holds the stored calculations as
`(key, id)` rows; `createdCalculations` and `createdResults` record each
`crud.create_calculation` and `crud.create_result` call; `computed` records
each `calculate_model` invocation. -/
structure CrudState where
  db : List (CalcKey × Nat)
  nextId : Nat
  createdCalculations : List CalcKey
  createdResults : List (Nat × ℚ)
  computed : List CalcKey
deriving Repr

/-- Modelled from the spec: `crud.get_calculation` — look the calculation
up by its identity, `None` when no row matches. -/
def get_calculation (s : CrudState) (k : CalcKey) : Option Nat :=
  (s.db.find? (fun e => e.1 = k)).map (fun e => e.2)

/-- Modelled from the spec: `crud.create_calculation` — insert a new row
for the key and return the saved row (its id). -/
def create_calculation (s : CrudState) (k : CalcKey) : CrudState × Nat :=
  ({ s with
      db := s.db ++ [(k, s.nextId)]
      nextId := s.nextId + 1
      createdCalculations := s.createdCalculations ++ [k] }, s.nextId)

/-- Modelled from the spec: `crud.create_result` — attach a result payload
to the calculation with the given id. -/
def create_result (s : CrudState) (r : ℚ) (i : Nat) : CrudState :=
  { s with createdResults := s.createdResults ++ [(i, r)] }

/-- `get_model_calculations` (`portfolio_model.py` lines 70-88), with
`calculate_model` abstracted into the pure payload function `compute`
(its portfolio mathematics live in external libraries).  For each model in
order: look the calculation up; when a stored one exists, append it to the
results; otherwise run `calculate_model`, persist the calculation and its
result, re-fetch the stored row and append that. -/
def get_model_calculations (compute : String → String → ℚ) (s : CrudState)
    (models : List String) (metadata : String) : CrudState × List (Option Nat) :=
  match models with
  | [] => (s, [])
  | model :: rest =>
      match get_calculation s (model, metadata) with
      | some dbCalculation =>
          let out := get_model_calculations compute s rest metadata
          (out.1, some dbCalculation :: out.2)
      | none =>
          let s1 := { s with computed := s.computed ++ [(model, metadata)] }
          let r := compute model metadata
          let created := create_calculation s1 (model, metadata)
          let s3 := create_result created.1 r created.2
          let dbCalc := get_calculation s3 (model, metadata)
          let out := get_model_calculations compute s3 rest metadata
          (out.1, dbCalc :: out.2)

/-! ## Concrete fixtures for closed evaluations -/

/-- A minimal concrete `Problem`. -/
def sampleProblem : Problem :=
  ⟨[[2]], [3], [], [], [], 0, 0, some 1, fun _ => 0, fun l => l⟩

/-- A concrete `Job` over `sampleProblem`. -/
def sampleJob (provider algorithm : String) (config : List (String × PyVal)) : Job :=
  ⟨sampleProblem, ⟨provider, algorithm, config⟩⟩

/-- An `Oracle` whose SDK calls all succeed with minimal responses. -/
def idleOracle : Oracle :=
  ⟨.ok [], .ok ⟨none, 0, 0⟩, fun _ => .ok (), .ok [], false, .ok (), .ok [], .ok [()]⟩

/-- An `Oracle` whose OSQP solve succeeds with `x = [1]`, `obj_val = 5`,
`run_time = 2`. -/
def osqpOkOracle : Oracle := { idleOracle with osqpSolve := .ok ⟨some [1], 5, 2⟩ }

/-- An `Oracle` whose OSQP solve raises a non-`TypeError` exception. -/
def osqpFailOracle : Oracle :=
  { idleOracle with osqpSolve := .error (.otherError "OSQP solve failed") }

/-- A crud state that already stores a calculation for `("osqp", "m")`. -/
def cachedState : CrudState := ⟨[(("osqp", "m"), 7)], 8, [], [], []⟩

/-! ## Claim theorems -/

/-- C1: every one of the five adapter-selection strings resolves, via
`Providers.fromValue`, to the enumeration member whose `eval`-constructed
function name dispatches to exactly the corresponding adapter function, and
`Providers` has no members beyond the five. -/
theorem providers_dispatch_table :
    (Providers.fromValue "pypfopt" = some .pypo ∧
      ∀ job o, Providers.pypo.evalRunJob job o = run_pypo_job job o) ∧
    (Providers.fromValue "osqp" = some .osqp ∧
      ∀ job o, Providers.osqp.evalRunJob job o = run_osqp_job job o) ∧
    (Providers.fromValue "azure_quantum_qio" = some .qio ∧
      ∀ job o, Providers.qio.evalRunJob job o = run_qio_job job o) ∧
    (Providers.fromValue "qiskit_ibm" = some .qiskit ∧
      ∀ job o, Providers.qiskit.evalRunJob job o = run_qiskit_job job o) ∧
    (Providers.fromValue "azure_ionq" = some .ionq ∧
      ∀ job o, Providers.ionq.evalRunJob job o = run_ionq_job job o) ∧
    (∀ p : Providers, p ∈ Providers.members) := by
  refine ⟨⟨rfl, fun _ _ => rfl⟩, ⟨rfl, fun _ _ => rfl⟩, ⟨rfl, fun _ _ => rfl⟩,
    ⟨rfl, fun _ _ => rfl⟩, ⟨rfl, fun _ _ => rfl⟩, fun p => ?_⟩
  cases p <;> decide

/-- C8: the algorithm, config and resolution that `calculate_model`
passes to its `Solver` and `Problem`: for `'qio'` the algorithm is `'PA'`
with the timeout/hardware config and resolution 1; for `'qiskit'` and
`'ionq'` the algorithm is `'QAOA'` with empty config and resolution 1; for
every other model name the algorithm is the model name itself, the config
is empty and the resolution is `None`. -/
theorem calculate_model_solver_params :
    (calculate_model_solver "qio" =
        some ⟨"azure_quantum_qio", "PA",
          [("timeout", PyVal.num 1), ("hardware", PyVal.str "FPGA")]⟩ ∧
      calculate_model_resolution "qio" = some 1) ∧
    (calculate_model_solver "qiskit" = some ⟨"qiskit_ibm", "QAOA", []⟩ ∧
      calculate_model_resolution "qiskit" = some 1) ∧
    (calculate_model_solver "ionq" = some ⟨"azure_ionq", "QAOA", []⟩ ∧
      calculate_model_resolution "ionq" = some 1) ∧
    (∀ m : String, m ≠ "qio" → m ≠ "qiskit" → m ≠ "ionq" →
      calcSolverParams m = (m, [], none)) := by
  refine ⟨⟨rfl, rfl⟩, ⟨rfl, rfl⟩, ⟨rfl, rfl⟩, fun m h1 h2 h3 => ?_⟩
  simp [calcSolverParams, h1, h2, h3]

/-- Witness for `calculate_model_solver_params` at the concrete model
name `"pypo"`. -/
theorem calculate_model_solver_params_witness :
    calcSolverParams "pypo" = ("pypo", [], none) :=
  calculate_model_solver_params.2.2.2 "pypo" (by decide) (by decide) (by decide)

/-- C2 counterexample: for a job whose `provider_name` is no member value,
`run_job` raises `ValueError` (Python's enum lookup failure), which its
`except TypeError:` handler does not catch: no warning is issued and
`run_job` does not return normally. -/
theorem run_job_unknown_provider_cex :
    run_job (sampleJob "gurobi" "gurobi" []) idleOracle =
      ⟨[], .error (.valueError "gurobi is not a valid Providers")⟩ := rfl

/-- C3: at a job dispatched to the ionq adapter (Azure provider reachable,
simulator backend list non-empty), `run_ionq_job` raises `TypeError` —
`run_qiskit_job` is called with two arguments though it is defined with
one — instead of returning any triple. -/
theorem run_ionq_job_raises_typeError :
    run_ionq_job (sampleJob "azure_ionq" "QAOA" []) idleOracle =
      ⟨[], .error (.typeError
        "run_qiskit_job() takes 1 positional argument but 2 were given")⟩ := rfl

/-- C5 counterexample: a failing OSQP solve is not caught by
`run_osqp_job` — the exception propagates to the caller, no warning is
issued and no `(None, None, None)` triple is returned. -/
theorem run_osqp_job_propagates_cex :
    run_osqp_job (sampleJob "osqp" "osqp" []) osqpFailOracle =
      ⟨[], .error (.otherError "OSQP solve failed")⟩ := rfl

/-- C6 counterexample: for a job whose algorithm `"QAOA"` is none of the
six recognised QIO algorithms, `run_qio_job` logs the warning but then
raises `UnboundLocalError` (reading the never-assigned `qio_solver`), so it
does not return without raising. -/
theorem run_qio_job_unknown_algorithm_cex :
    run_qio_job (sampleJob "azure_quantum_qio" "QAOA" []) idleOracle =
      ⟨[qioNotImplementedWarn], .error (.unboundLocalError "qio_solver")⟩ := rfl

/-- C4 counterexample: the OSQP adapter extracts `v = [1]` from the SDK
response, but the stored result holds `variable_values = [100]` — the
extracted vector scaled by 100, not unchanged. -/
theorem run_job_scales_variable_values_cex :
    run_job (sampleJob "osqp" "osqp" []) osqpOkOracle =
      ⟨[], .ok (some ⟨[100], some 5, some (.num 2)⟩)⟩ ∧
    ([100] : List ℚ) ≠ [1] := by
  refine ⟨?_, by norm_num⟩
  show (⟨[], .ok (some ⟨List.map (· * 100) [(1 : ℚ)], some 5, some (.num 2)⟩)⟩ :
      PyRes (Option Result)) = _
  norm_num

/-- An `Oracle` whose pypfopt call raises. -/
def pypoFailOracle : Oracle :=
  { idleOracle with pypoSolve := .error (.valueError "pypfopt failed") }

/-- An `Oracle` whose QAOA solve raises. -/
def qiskitFailOracle : Oracle :=
  { idleOracle with qiskitSolve := .error (.otherError "qiskit failed") }

/-- An `Oracle` whose Azure QIO optimize raises `TypeError`. -/
def qioTypeErrOracle : Oracle :=
  { idleOracle with qioOptimize := .error (.typeError "bad parameter") }

/-- A job routed to the QIO provider with a recognised algorithm and a
configured timeout. -/
def qioOkJob : Job :=
  sampleJob "azure_quantum_qio" "PA" [("timeout", PyVal.num 1)]

/-- C2 amended: `run_job` catches only `TypeError` from the adapter
invocation and converts it to the provider warning, but then the `Result`
construction reads the never-assigned local `variable_values` and raises
`UnboundLocalError`, which propagates; an unknown `provider_name` raises
`ValueError`, which propagates uncaught with no warning, as does every
non-`TypeError` exception of the adapter; `run_job` returns normally with
`job.result` unset exactly when the adapter returned a triple whose
variable values are `None` (after the second warning), and `job.result` is
only ever assigned a fully constructed `Result`, never partially. -/
theorem run_job_exception_paths :
    (∀ job o, Providers.fromValue job.solver.provider_name = none →
      run_job job o = ⟨[], .error (.valueError
        (job.solver.provider_name ++ " is not a valid Providers"))⟩) ∧
    (∀ job o p ws m, Providers.fromValue job.solver.provider_name = some p →
      p.evalRunJob job o = ⟨ws, .error (.typeError m)⟩ →
      run_job job o = ⟨ws ++ [providerWarn job.solver.provider_name],
        .error (.unboundLocalError "variable_values")⟩) ∧
    (∀ job o p ws e, Providers.fromValue job.solver.provider_name = some p →
      p.evalRunJob job o = ⟨ws, .error e⟩ → (∀ m, e ≠ .typeError m) →
      run_job job o = ⟨ws, .error e⟩) ∧
    (∀ job o p ws obj t, Providers.fromValue job.solver.provider_name = some p →
      p.evalRunJob job o = ⟨ws, .ok (.triple none obj t)⟩ →
      run_job job o = ⟨ws ++ [noVariableValuesWarn], .ok none⟩) := by
  refine ⟨fun job o hp => ?_, fun job o p ws m hp hr => ?_,
    fun job o p ws e hp hr hm => ?_, fun job o p ws obj t hp hr => ?_⟩
  · simp [run_job, hp]
  · simp [run_job, hp, hr]
  · cases e with
    | typeError m => exact absurd rfl (hm m)
    | valueError m => simp [run_job, hp, hr]
    | keyError m => simp [run_job, hp, hr]
    | unboundLocalError m => simp [run_job, hp, hr]
    | otherError m => simp [run_job, hp, hr]
  · simp [run_job, hp, hr]

/-- Witness for `run_job_exception_paths`: each branch applied at a
concrete job and oracle. -/
theorem run_job_exception_paths_witness :
    run_job (sampleJob "gurobi" "mv" []) idleOracle =
      ⟨[], .error (.valueError "gurobi is not a valid Providers")⟩ ∧
    run_job (sampleJob "azure_ionq" "QAOA" []) idleOracle =
      ⟨[] ++ [providerWarn "azure_ionq"], .error (.unboundLocalError "variable_values")⟩ ∧
    run_job (sampleJob "osqp" "osqp" []) osqpFailOracle =
      ⟨[], .error (.otherError "OSQP solve failed")⟩ ∧
    run_job (sampleJob "osqp" "osqp" []) idleOracle =
      ⟨[] ++ [noVariableValuesWarn], .ok none⟩ :=
  ⟨run_job_exception_paths.1 (sampleJob "gurobi" "mv" []) idleOracle rfl,
    run_job_exception_paths.2.1 (sampleJob "azure_ionq" "QAOA" []) idleOracle .ionq []
      "run_qiskit_job() takes 1 positional argument but 2 were given" rfl rfl,
    run_job_exception_paths.2.2.1 (sampleJob "osqp" "osqp" []) osqpFailOracle .osqp []
      (.otherError "OSQP solve failed") rfl rfl (fun _ h => PyExc.noConfusion h),
    run_job_exception_paths.2.2.2 (sampleJob "osqp" "osqp" []) idleOracle .osqp []
      (some 0) (some (.num 0)) rfl rfl⟩

/-- C4 amended: when the dispatched adapter returns a triple `(v, o, t)`
with an actual variable vector, `run_job` stores `job.result` with
`variable_values` equal to `v` scaled elementwise by 100 (not `v`
unchanged), and `objective_value` and `time_to_solution` unchanged. -/
theorem run_job_stores_scaled_triple :
    ∀ job o p ws v obj t, Providers.fromValue job.solver.provider_name = some p →
      p.evalRunJob job o = ⟨ws, .ok (.triple (some v) obj t)⟩ →
      run_job job o = ⟨ws, .ok (some ⟨v.map (· * 100), obj, t⟩)⟩ := by
  intro job o p ws v obj t hp hr
  simp [run_job, hp, hr]

/-- Witness for `run_job_stores_scaled_triple` at the OSQP adapter with
`x = [1]`, `obj_val = 5`, `run_time = 2`. -/
theorem run_job_stores_scaled_triple_witness :
    run_job (sampleJob "osqp" "osqp" []) osqpOkOracle =
      ⟨[], .ok (some ⟨List.map (· * 100) [(1 : ℚ)], some 5, some (.num 2)⟩)⟩ :=
  run_job_stores_scaled_triple (sampleJob "osqp" "osqp" []) osqpOkOracle .osqp []
    [1] (some 5) (some (.num 2)) rfl rfl

/-- C5 amended: only `run_qio_job` catches a failure of its solver
invocation, and only `TypeError`: it issues the warning and returns the
`(None, None, None)` triple.  `run_pypo_job`, `run_osqp_job` and
`run_qiskit_job` have no handler around their solver invocation: the
exception propagates to the caller and no warning is issued by the
adapter. -/
theorem adapter_error_propagation :
    (∀ job o m, o.azureProvider false = .ok () →
      job.solver.algorithm ∈ qioAlgorithms →
      (job.solver.algorithm = "QMC" ∨ lookupConfig job.solver.config "timeout" ≠ none) →
      o.qioOptimize = .error (.typeError m) →
      run_qio_job job o = ⟨[qioFailedWarn], .ok (.triple none none none)⟩) ∧
    (∀ job o e, o.pypoSolve = .error e → run_pypo_job job o = ⟨[], .error e⟩) ∧
    (∀ job o e, o.osqpSolve = .error e → run_osqp_job job o = ⟨[], .error e⟩) ∧
    (∀ job o e, o.ibmqAccountError = false → o.ibmqGetProvider = .ok () →
      o.qiskitSolve = .error e → run_qiskit_job job o = ⟨[], .error e⟩) := by
  refine ⟨fun job o m hA hmem hQMC hOpt => ?_, fun job o e h => ?_,
    fun job o e h => ?_, fun job o e hacc hprov hsolve => ?_⟩
  · have hcond : ¬(job.solver.algorithm ≠ "QMC" ∧
        lookupConfig job.solver.config "timeout" = none) := by
      rcases hQMC with h | h
      · exact fun hc => hc.1 h
      · exact fun hc => h hc.2
    simp [run_qio_job, hA, hmem, hcond, hOpt]
  · simp [run_pypo_job, h]
  · simp [run_osqp_job, h]
  · simp [run_qiskit_job, configure_qiskit_provider, hacc, hprov, hsolve]

/-- Witness for `adapter_error_propagation` at concrete jobs and
oracles. -/
theorem adapter_error_propagation_witness :
    run_qio_job qioOkJob qioTypeErrOracle =
      ⟨[qioFailedWarn], .ok (.triple none none none)⟩ ∧
    run_pypo_job (sampleJob "pypfopt" "mv" []) pypoFailOracle =
      ⟨[], .error (.valueError "pypfopt failed")⟩ ∧
    run_osqp_job (sampleJob "osqp" "osqp" []) osqpFailOracle =
      ⟨[], .error (.otherError "OSQP solve failed")⟩ ∧
    run_qiskit_job (sampleJob "qiskit_ibm" "QAOA" []) qiskitFailOracle =
      ⟨[], .error (.otherError "qiskit failed")⟩ :=
  ⟨adapter_error_propagation.1 qioOkJob qioTypeErrOracle "bad parameter" rfl
      (by decide) (Or.inr (by decide)) rfl,
    adapter_error_propagation.2.1 (sampleJob "pypfopt" "mv" []) pypoFailOracle
      (.valueError "pypfopt failed") rfl,
    adapter_error_propagation.2.2.1 (sampleJob "osqp" "osqp" []) osqpFailOracle
      (.otherError "OSQP solve failed") rfl,
    adapter_error_propagation.2.2.2 (sampleJob "qiskit_ibm" "QAOA" []) qiskitFailOracle
      (.otherError "qiskit failed") rfl rfl rfl⟩

/-- C6 amended: for a job whose algorithm is none of `SA`, `PA`, `PT`,
`Tabu`, `QMC`, `SMC`, `run_qio_job` logs the not-implemented warning and
then raises `UnboundLocalError` — `qio_solver` was never assigned and the
`except TypeError:` handler does not catch that class — so an exception
does propagate to its caller. -/
theorem run_qio_job_unknown_algorithm_raises :
    ∀ job o, o.azureProvider false = .ok () →
      job.solver.algorithm ∉ qioAlgorithms →
      run_qio_job job o =
        ⟨[qioNotImplementedWarn], .error (.unboundLocalError "qio_solver")⟩ := by
  intro job o hA hmem
  simp [run_qio_job, hA, hmem]

/-- Witness for `run_qio_job_unknown_algorithm_raises` at the algorithm
name `"VQE"`. -/
theorem run_qio_job_unknown_algorithm_raises_witness :
    run_qio_job (sampleJob "azure_quantum_qio" "VQE" []) idleOracle =
      ⟨[qioNotImplementedWarn], .error (.unboundLocalError "qio_solver")⟩ :=
  run_qio_job_unknown_algorithm_raises (sampleJob "azure_quantum_qio" "VQE" [])
    idleOracle rfl (by decide)

/-- C9: the time-to-solution component is not a measured wall-clock value
for most adapters: `run_pypo_job` and `run_qiskit_job` always return
`None` there, a successful `run_qio_job` returns the configured
`config['timeout']`, and only `run_osqp_job` returns the solver-reported
`info.run_time`. -/
theorem time_to_solution_sources :
    (∀ job o vs, o.pypoSolve = .ok vs →
      run_pypo_job job o = ⟨[], .ok (.triple (some vs)
        (some (job.problem.calc_objective_value vs)) none)⟩) ∧
    (∀ job o x, o.ibmqAccountError = false → o.ibmqGetProvider = .ok () →
      o.qiskitSolve = .ok x →
      run_qiskit_job job o = ⟨[], .ok (.triple (some x)
        (some (quadraticObjective job.problem.P job.problem.q x)) none)⟩) ∧
    (∀ job o ws v obj t, run_qio_job job o = ⟨ws, .ok (.triple (some v) obj t)⟩ →
      t = lookupConfig job.solver.config "timeout") ∧
    (∀ job o raw, o.osqpSolve = .ok raw →
      run_osqp_job job o = ⟨[], .ok (.triple raw.x (some raw.obj_val)
        (some (.num raw.run_time)))⟩) := by
  refine ⟨fun job o vs h => by simp [run_pypo_job, h],
    fun job o x hacc hprov hsolve => by
      simp [run_qiskit_job, configure_qiskit_provider, hacc, hprov, hsolve],
    fun job o ws v obj t h => ?_,
    fun job o raw h => by simp [run_osqp_job, h]⟩
  unfold run_qio_job at h
  cases hA : o.azureProvider false with
  | error e => rw [hA] at h; simp at h
  | ok u =>
    rw [hA] at h
    by_cases hm : job.solver.algorithm ∈ qioAlgorithms
    · rw [if_pos hm] at h
      by_cases hc : job.solver.algorithm ≠ "QMC" ∧
          lookupConfig job.solver.config "timeout" = none
      · rw [if_pos hc] at h; simp at h
      · rw [if_neg hc] at h
        cases hOpt : o.qioOptimize with
        | error e =>
          rw [hOpt] at h
          cases e <;> simp at h
        | ok cfgVals =>
          rw [hOpt] at h
          cases hr : job.problem.resolution with
          | none => rw [hr] at h; simp at h
          | some r =>
            rw [hr] at h
            cases hL : lookupConfig job.solver.config "timeout" with
            | none => rw [hL] at h; simp at h
            | some t0 => rw [hL] at h; simp at h; simp [hL, h.2.2.2]
    · rw [if_neg hm] at h; simp at h

/-- Witness for `time_to_solution_sources` at concrete jobs and
oracles. -/
theorem time_to_solution_sources_witness :
    run_pypo_job (sampleJob "pypfopt" "mv" []) idleOracle =
      ⟨[], .ok (.triple (some []) (some 0) none)⟩ ∧
    run_qiskit_job (sampleJob "qiskit_ibm" "QAOA" []) idleOracle =
      ⟨[], .ok (.triple (some [])
        (some (quadraticObjective sampleProblem.P sampleProblem.q [])) none)⟩ ∧
    some (PyVal.num 1) = lookupConfig qioOkJob.solver.config "timeout" ∧
    run_osqp_job (sampleJob "osqp" "osqp" []) osqpOkOracle =
      ⟨[], .ok (.triple (some [1]) (some 5) (some (.num 2)))⟩ :=
  ⟨time_to_solution_sources.1 (sampleJob "pypfopt" "mv" []) idleOracle [] rfl,
    time_to_solution_sources.2.1 (sampleJob "qiskit_ibm" "QAOA" []) idleOracle [] rfl rfl rfl,
    time_to_solution_sources.2.2.1 qioOkJob idleOracle []
      ((qioOkJob.problem.interpret []).map (· * 1))
      (some (quadraticObjective qioOkJob.problem.P qioOkJob.problem.q
        ((qioOkJob.problem.interpret []).map (· * 1))))
      (some (PyVal.num 1)) rfl,
    time_to_solution_sources.2.2.2 (sampleJob "osqp" "osqp" []) osqpOkOracle
      ⟨some [1], 5, 2⟩ rfl⟩

/-- C7 counterexample: with a calculation for `("osqp", "m")` already
stored, `get_model_calculations` returns the persisted row `7` and never
invokes `calculate_model` (the `computed` log stays empty): the system does
look persisted calculations up in place of recomputation. -/
theorem get_model_calculations_cached_cex :
    (get_model_calculations (fun _ _ => 0) cachedState ["osqp"] "m").1.computed = [] ∧
    (get_model_calculations (fun _ _ => 0) cachedState ["osqp"] "m").2 = [some 7] :=
  ⟨rfl, rfl⟩

/-! ## Lemmas about `get_model_calculations` -/

/-- The state after one cache-miss iteration of `get_model_calculations`:
`calculate_model` logged, the calculation row inserted, the result row
attached. -/
def stepState (compute : String → String → ℚ) (s : CrudState) (m0 md : String) : CrudState :=
  ⟨s.db ++ [((m0, md), s.nextId)], s.nextId + 1,
    s.createdCalculations ++ [(m0, md)],
    s.createdResults ++ [(s.nextId, compute m0 md)],
    s.computed ++ [(m0, md)]⟩

/-- Unfolding equation of `get_model_calculations` for a cache hit. -/
lemma gmc_cons_found (compute : String → String → ℚ) (s : CrudState)
    (m0 : String) (rest : List String) (md : String) (c : Nat)
    (hgc : get_calculation s (m0, md) = some c) :
    get_model_calculations compute s (m0 :: rest) md =
      ((get_model_calculations compute s rest md).1,
        some c :: (get_model_calculations compute s rest md).2) := by
  conv_lhs => rw [get_model_calculations]
  rw [hgc]

/-- Unfolding equation of `get_model_calculations` for a cache miss. -/
lemma gmc_cons_missing (compute : String → String → ℚ) (s : CrudState)
    (m0 : String) (rest : List String) (md : String)
    (hgc : get_calculation s (m0, md) = none) :
    get_model_calculations compute s (m0 :: rest) md =
      ((get_model_calculations compute (stepState compute s m0 md) rest md).1,
        get_calculation (stepState compute s m0 md) (m0, md)
          :: (get_model_calculations compute (stepState compute s m0 md) rest md).2) := by
  conv_lhs => rw [get_model_calculations]
  rw [hgc]
  rfl

/-- `find?` over an appended singleton when the prefix has no match. -/
lemma find?_key_append_single (db : List (CalcKey × Nat)) (k0 k : CalcKey) (i : Nat)
    (h : db.find? (fun e => e.1 = k) = none) :
    (db ++ [(k0, i)]).find? (fun e => e.1 = k) =
      if k0 = k then some (k0, i) else none := by
  rw [List.find?_append, h]
  by_cases hk : k0 = k <;> simp [List.find?, hk]

/-- A stored calculation survives any extension of the database. -/
lemma get_calculation_extend_some (s s' : CrudState) (t : List (CalcKey × Nat))
    (hdb : s'.db = s.db ++ t) (k : CalcKey) (v : Nat)
    (h : get_calculation s k = some v) : get_calculation s' k = some v := by
  unfold get_calculation at h ⊢
  rw [hdb, List.find?_append]
  rcases hf : s.db.find? (fun e => e.1 = k) with _ | e
  · simp [hf] at h
  · rw [hf] at h
    rw [hf]
    exact h

/-- Looking a key up after one insertion, when it was absent before. -/
lemma get_calculation_push (s s' : CrudState) (k0 k : CalcKey) (i : Nat)
    (hnone : get_calculation s k = none) (hdb : s'.db = s.db ++ [(k0, i)]) :
    get_calculation s' k = if k0 = k then some i else none := by
  have hfind : s.db.find? (fun e => e.1 = k) = none := by
    unfold get_calculation at hnone
    exact Option.map_eq_none'.mp hnone
  unfold get_calculation
  rw [hdb, find?_key_append_single _ _ _ _ hfind]
  by_cases hk : k0 = k <;> simp [hk]

/-- The database only grows across `get_model_calculations`. -/
lemma gmc_db_extend (compute : String → String → ℚ) (s : CrudState)
    (models : List String) (md : String) :
    ∃ t, (get_model_calculations compute s models md).1.db = s.db ++ t := by
  induction models generalizing s with
  | nil => exact ⟨[], by simp [get_model_calculations]⟩
  | cons m0 rest ih =>
    cases hgc : get_calculation s (m0, md) with
    | some c =>
      obtain ⟨t, ht⟩ := ih s
      rw [gmc_cons_found compute s m0 rest md c hgc]
      exact ⟨t, ht⟩
    | none =>
      obtain ⟨t, ht⟩ := ih (stepState compute s m0 md)
      rw [gmc_cons_missing compute s m0 rest md hgc]
      exact ⟨((m0, md), s.nextId) :: t, ht.trans (by simp [stepState])⟩

/-- The `calculate_model` log only grows across `get_model_calculations`. -/
lemma gmc_computed_mono (compute : String → String → ℚ) (s : CrudState)
    (models : List String) (md : String) (x : CalcKey) (hx : x ∈ s.computed) :
    x ∈ (get_model_calculations compute s models md).1.computed := by
  induction models generalizing s with
  | nil => simpa [get_model_calculations] using hx
  | cons m0 rest ih =>
    cases hgc : get_calculation s (m0, md) with
    | some c =>
      rw [gmc_cons_found compute s m0 rest md c hgc]
      exact ih s hx
    | none =>
      rw [gmc_cons_missing compute s m0 rest md hgc]
      exact ih (stepState compute s m0 md) (by simp [stepState, hx])

/-- A stored calculation is still stored, with the same row, in the final
state of `get_model_calculations`. -/
lemma gmc_get_calculation_mono (compute : String → String → ℚ) (s : CrudState)
    (models : List String) (md : String) (k : CalcKey) (v : Nat)
    (h : get_calculation s k = some v) :
    get_calculation (get_model_calculations compute s models md).1 k = some v := by
  obtain ⟨t, ht⟩ := gmc_db_extend compute s models md
  exact get_calculation_extend_some s _ t ht k v h

/-- The returned list has exactly one entry per input model. -/
lemma gmc_length (compute : String → String → ℚ) (s : CrudState)
    (models : List String) (md : String) :
    (get_model_calculations compute s models md).2.length = models.length := by
  induction models generalizing s with
  | nil => simp [get_model_calculations]
  | cons m0 rest ih =>
    cases hgc : get_calculation s (m0, md) with
    | some c =>
      rw [gmc_cons_found compute s m0 rest md c hgc]
      simp [ih s]
    | none =>
      rw [gmc_cons_missing compute s m0 rest md hgc]
      simp [ih (stepState compute s m0 md)]

/-- The `i`-th returned entry is the stored calculation of the `i`-th
input model (looked up in the final database state). -/
lemma gmc_order (compute : String → String → ℚ) (s : CrudState)
    (models : List String) (md : String) (i : Nat) (m : String)
    (hm : models[i]? = some m) :
    (get_model_calculations compute s models md).2[i]? =
      some (get_calculation (get_model_calculations compute s models md).1 (m, md)) := by
  induction models generalizing s i with
  | nil => simp at hm
  | cons m0 rest ih =>
    cases i with
    | zero =>
      have hm0 : m0 = m := by simpa using hm
      subst hm0
      cases hgc : get_calculation s (m0, md) with
      | some c =>
        rw [gmc_cons_found compute s m0 rest md c hgc]
        simp [gmc_get_calculation_mono compute s rest md (m0, md) c hgc]
      | none =>
        rw [gmc_cons_missing compute s m0 rest md hgc]
        have hpush : get_calculation (stepState compute s m0 md) (m0, md) = some s.nextId := by
          rw [get_calculation_push s (stepState compute s m0 md) (m0, md) (m0, md)
            s.nextId hgc (by simp [stepState])]
          simp
        simp [hpush,
          gmc_get_calculation_mono compute (stepState compute s m0 md) rest md
            (m0, md) s.nextId hpush]
    | succ j =>
      have hm' : rest[j]? = some m := by simpa using hm
      cases hgc : get_calculation s (m0, md) with
      | some c =>
        rw [gmc_cons_found compute s m0 rest md c hgc]
        simpa using ih s j hm'
      | none =>
        rw [gmc_cons_missing compute s m0 rest md hgc]
        simpa using ih (stepState compute s m0 md) j hm'

/-- Every calculation created during `get_model_calculations` is one of the
requested models and had no stored calculation at entry. -/
lemma gmc_created_only (compute : String → String → ℚ) (s : CrudState)
    (models : List String) (md : String) :
    ∀ k, k ∈ (get_model_calculations compute s models md).1.createdCalculations →
      k ∈ s.createdCalculations ∨ (k.1 ∈ models ∧ get_calculation s k = none) := by
  induction models generalizing s with
  | nil =>
    intro k hk
    left
    simpa [get_model_calculations] using hk
  | cons m0 rest ih =>
    intro k hk
    cases hgc : get_calculation s (m0, md) with
    | some c =>
      rw [gmc_cons_found compute s m0 rest md c hgc] at hk
      rcases ih s k hk with h | ⟨h1, h2⟩
      · exact Or.inl h
      · exact Or.inr ⟨List.mem_cons_of_mem _ h1, h2⟩
    | none =>
      rw [gmc_cons_missing compute s m0 rest md hgc] at hk
      rcases ih (stepState compute s m0 md) k hk with h | ⟨h1, h2⟩
      · rcases List.mem_append.mp h with h0 | h0
        · exact Or.inl h0
        · have hk0 : k = (m0, md) := by simpa using h0
          subst hk0
          exact Or.inr ⟨List.mem_cons_self _ _, hgc⟩
      · right
        refine ⟨List.mem_cons_of_mem _ h1, ?_⟩
        rcases hs : get_calculation s k with _ | v
        · rfl
        · exfalso
          have hkeep : get_calculation (stepState compute s m0 md) k = some v :=
            get_calculation_extend_some s _ [((m0, md), s.nextId)]
              (by simp [stepState]) k v hs
          rw [hkeep] at h2
          cases h2

/-- One result row is attached for every calculation row created. -/
lemma gmc_results_lockstep (compute : String → String → ℚ) (s : CrudState)
    (models : List String) (md : String) :
    (get_model_calculations compute s models md).1.createdResults.length
        + s.createdCalculations.length
      = (get_model_calculations compute s models md).1.createdCalculations.length
        + s.createdResults.length := by
  induction models generalizing s with
  | nil =>
    simp [get_model_calculations]
    omega
  | cons m0 rest ih =>
    cases hgc : get_calculation s (m0, md) with
    | some c =>
      rw [gmc_cons_found compute s m0 rest md c hgc]
      exact ih s
    | none =>
      rw [gmc_cons_missing compute s m0 rest md hgc]
      show (get_model_calculations compute (stepState compute s m0 md) rest md).1.createdResults.length
            + s.createdCalculations.length
          = (get_model_calculations compute (stepState compute s m0 md) rest md).1.createdCalculations.length
            + s.createdResults.length
      have h := ih (stepState compute s m0 md)
      have hc : (stepState compute s m0 md).createdCalculations.length
          = s.createdCalculations.length + 1 := by simp [stepState]
      have hr : (stepState compute s m0 md).createdResults.length
          = s.createdResults.length + 1 := by simp [stepState]
      omega

/-- A key with a stored calculation is never fed to `calculate_model`:
its membership in the `computed` log is unchanged. -/
lemma gmc_stored_not_recomputed (compute : String → String → ℚ) (s : CrudState)
    (models : List String) (md : String) (k : CalcKey) (v : Nat)
    (h : get_calculation s k = some v) :
    (k ∈ (get_model_calculations compute s models md).1.computed ↔ k ∈ s.computed) := by
  induction models generalizing s with
  | nil => simp [get_model_calculations]
  | cons m0 rest ih =>
    cases hgc : get_calculation s (m0, md) with
    | some c =>
      rw [gmc_cons_found compute s m0 rest md c hgc]
      exact ih s h
    | none =>
      rw [gmc_cons_missing compute s m0 rest md hgc]
      have hne : k ≠ (m0, md) := by
        intro he
        rw [he, hgc] at h
        cases h
      have hkeep : get_calculation (stepState compute s m0 md) k = some v :=
        get_calculation_extend_some s _ [((m0, md), s.nextId)]
          (by simp [stepState]) k v h
      exact (ih (stepState compute s m0 md) hkeep).trans (by simp [stepState, hne])

/-- A requested model with no stored calculation is fed to
`calculate_model`. -/
lemma gmc_missing_computed (compute : String → String → ℚ) (s : CrudState)
    (models : List String) (md : String) (m : String)
    (hm : m ∈ models) (h : get_calculation s (m, md) = none) :
    (m, md) ∈ (get_model_calculations compute s models md).1.computed := by
  induction models generalizing s with
  | nil => cases hm
  | cons m0 rest ih =>
    cases hgc : get_calculation s (m0, md) with
    | some c =>
      rw [gmc_cons_found compute s m0 rest md c hgc]
      have hm' : m ∈ rest := by
        rcases List.mem_cons.mp hm with h0 | h0
        · subst h0
          rw [h] at hgc
          cases hgc
        · exact h0
      exact ih s hm' h
    | none =>
      rw [gmc_cons_missing compute s m0 rest md hgc]
      by_cases he : m = m0
      · have hmem : (m, md) ∈ (stepState compute s m0 md).computed := by
          simp [stepState, he]
        exact gmc_computed_mono compute (stepState compute s m0 md) rest md (m, md) hmem
      · have hm' : m ∈ rest := by
          rcases List.mem_cons.mp hm with h0 | h0
          · exact absurd h0 he
          · exact h0
        have h' : get_calculation (stepState compute s m0 md) (m, md) = none := by
          rw [get_calculation_push s (stepState compute s m0 md) (m0, md) (m, md)
            s.nextId h (by simp [stepState])]
          simp [Ne.symm he]
        exact ih (stepState compute s m0 md) hm' h'

/-- C10: the returned list has exactly one entry per input model, in input
order — the `i`-th entry is the stored calculation of the `i`-th model —
and calculation/result rows are persisted only for models that had no
stored calculation, one result row per calculation row. -/
theorem get_model_calculations_shape :
    ∀ (compute : String → String → ℚ) (s : CrudState) (models : List String) (md : String),
    ((get_model_calculations compute s models md).2.length = models.length) ∧
    (∀ (i : Nat) (m : String), models[i]? = some m →
      (get_model_calculations compute s models md).2[i]? =
        some (get_calculation (get_model_calculations compute s models md).1 (m, md))) ∧
    (∀ k, k ∈ (get_model_calculations compute s models md).1.createdCalculations →
      k ∈ s.createdCalculations ∨ (k.1 ∈ models ∧ get_calculation s k = none)) ∧
    ((get_model_calculations compute s models md).1.createdResults.length
        + s.createdCalculations.length
      = (get_model_calculations compute s models md).1.createdCalculations.length
        + s.createdResults.length) :=
  fun compute s models md =>
    ⟨gmc_length compute s models md,
      fun i m hm => gmc_order compute s models md i m hm,
      gmc_created_only compute s models md,
      gmc_results_lockstep compute s models md⟩

/-- Witness for `get_model_calculations_shape`: two models over a state
that stores `("osqp", "m")` but not `("qio", "m")`. -/
theorem get_model_calculations_shape_witness :
    (get_model_calculations (fun _ _ => 0) cachedState ["osqp", "qio"] "m").2.length = 2 ∧
    (get_model_calculations (fun _ _ => 0) cachedState ["osqp", "qio"] "m").2[1]? =
      some (get_calculation
        (get_model_calculations (fun _ _ => 0) cachedState ["osqp", "qio"] "m").1
        ("qio", "m")) ∧
    (("qio", "m") ∈ cachedState.createdCalculations ∨
      (("qio" : String) ∈ ["osqp", "qio"] ∧
        get_calculation cachedState ("qio", "m") = none)) :=
  ⟨(get_model_calculations_shape (fun _ _ => 0) cachedState ["osqp", "qio"] "m").1,
    (get_model_calculations_shape (fun _ _ => 0) cachedState ["osqp", "qio"] "m").2.1
      1 "qio" rfl,
    (get_model_calculations_shape (fun _ _ => 0) cachedState ["osqp", "qio"] "m").2.2.1
      ("qio", "m") (by decide)⟩

/-- C7 amended: `get_model_calculations` does cache: a model whose
calculation is already stored is answered from the database and
`calculate_model` is not invoked for it, while a requested model with no
stored calculation is computed anew. -/
theorem get_model_calculations_cache_discipline :
    ∀ (compute : String → String → ℚ) (s : CrudState) (models : List String) (md : String),
    (∀ k v, get_calculation s k = some v →
      (k ∈ (get_model_calculations compute s models md).1.computed ↔ k ∈ s.computed)) ∧
    (∀ m, m ∈ models → get_calculation s (m, md) = none →
      (m, md) ∈ (get_model_calculations compute s models md).1.computed) :=
  fun compute s models md =>
    ⟨fun k v h => gmc_stored_not_recomputed compute s models md k v h,
      fun m hm h => gmc_missing_computed compute s models md m hm h⟩

/-- Witness for `get_model_calculations_cache_discipline` over
`cachedState`: the stored `("osqp", "m")` is not recomputed, the missing
`("qio", "m")` is. -/
theorem get_model_calculations_cache_discipline_witness :
    ((("osqp", "m") : CalcKey) ∈
        (get_model_calculations (fun _ _ => 0) cachedState ["osqp", "qio"] "m").1.computed ↔
      (("osqp", "m") : CalcKey) ∈ cachedState.computed) ∧
    (("qio", "m") : CalcKey) ∈
      (get_model_calculations (fun _ _ => 0) cachedState ["osqp", "qio"] "m").1.computed :=
  ⟨(get_model_calculations_cache_discipline (fun _ _ => 0) cachedState
      ["osqp", "qio"] "m").1 ("osqp", "m") 7 rfl,
    (get_model_calculations_cache_discipline (fun _ _ => 0) cachedState
      ["osqp", "qio"] "m").2 "qio" (by decide) rfl⟩

end Qupo
